import Mathlib

/-!
Verification of the client-side TLS engine of Postfix
(`src/postfix/src/tls/tls_client.c`): hostname matching, peer
verification and extraction, session-cache interaction, and the
orchestration in `tls_client_start` / `tls_client_init`.

C strings are modelled as `List Char` (a null pointer is `Option.none`
where it can occur); outcomes of external collaborators (OpenSSL,
tls_mgr, entropy source) are explicit inputs.
-/

namespace TLSClient

/-- ASCII lower-casing as done by `tolower` in the C locale,
used by `strcasecmp`. -/
def lowerChar (c : Char) : Char :=
  if 'A' ≤ c && c ≤ 'Z' then Char.ofNat (c.toNat + 32) else c

/-- Model of `strcasecmp(a, b) == 0`: the two strings are equal after
case-folding each character. -/
def strcasecmpEq (a b : List Char) : Bool :=
  a.map lowerChar == b.map lowerChar

/-- The suffix of `s` strictly after the first occurrence of `target`:
`strchr(s, target)` followed by moving one character past the match.
`none` when the character does not occur. -/
def strchrSuffix : List Char → Char → Option (List Char)
  | [], _ => none
  | c :: rest, target => if c = target then some rest else strchrSuffix rest target

/-- Model of `match_hostname(pattern, hostname)` from `tls_client.c`:
`strcasecmp(hostname, pattern) == 0 || (pattern[0] == '*' &&
pattern[1] == '.' && pattern[2] != 0 && (peername_left =
strchr(hostname, '.')) != 0 && strcasecmp(peername_left + 1,
pattern + 2) == 0)`. -/
def match_hostname (pattern hostname : List Char) : Bool :=
  strcasecmpEq hostname pattern ||
    match pattern with
    | p0 :: p1 :: rest =>
        p0 == '*' && p1 == '.' && !rest.isEmpty &&
          (match strchrSuffix hostname '.' with
           | some suffix => strcasecmpEq suffix rest
           | none => false)
    | _ => false

/-- The matching rule as the specification words it: case-insensitive
exact equality, or the pattern is `*` `.` followed by a non-empty
remainder, the hostname contains a dot, and the hostname's suffix after
its first dot equals the pattern's remainder case-insensitively. -/
def SpecHostnameMatch (pattern hostname : List Char) : Prop :=
  strcasecmpEq pattern hostname = true ∨
    ∃ rest suffix, pattern = '*' :: '.' :: rest ∧ rest ≠ [] ∧
      strchrSuffix hostname '.' = some suffix ∧ strcasecmpEq suffix rest = true

/-- A Subject-Alternative-Name entry (`GENERAL_NAME`): its type tag
(`gn->type == GEN_DNS`) and its character data (`gn->d.ia5->data`). -/
structure GENERAL_NAME where
  isDNS : Bool
  data : List Char
deriving DecidableEq

/-- The parts of the peer certificate that `verify_extract_peer` reads:
the Subject-Alternative-Name stack (`X509_get_ext_d2i` returns a null
pointer, modelled `none`, when the extension is absent), and the
outcomes of the external CommonName extractors `tls_peer_CN` /
`tls_issuer_CN` (`none` models a null result). -/
structure X509Cert where
  subjectAltNames : Option (List GENERAL_NAME)
  peerCN : Option (List Char)
  issuerCN : Option (List Char)
deriving DecidableEq

/-- The `for` loop over the `GENERAL_NAME` stack in
`verify_extract_peer`: counts DNS-type entries (`dNSName_found++`) and
stops at the first DNS entry whose data matches the peername.  Returns
`(dNSName_found, hostname_matched)`. -/
def scanDNS (peername : List Char) : List GENERAL_NAME → Nat × Bool
  | [] => (0, false)
  | gn :: rest =>
    if gn.isDNS then
      if match_hostname gn.data peername then (1, true)
      else
        let r := scanDNS peername rest
        (r.1 + 1, r.2)
    else scanDNS peername rest

/-- The fields of the `TLScontext` written by `verify_extract_peer`,
plus the loop counter `dNSName_found` for observability. -/
structure VerifyResult where
  peer_verified : Bool
  hostname_matched : Bool
  dNSName_found : Nat
  peer_CN : List Char
  issuer_CN : List Char
deriving DecidableEq

/-- Model of `verify_extract_peer(peername, peercert, TLScontext)` from
`tls_client.c`.  `enforce_CN` is `TLScontext->enforce_CN`;
`verify_result_ok` is the outcome of the external
`SSL_get_verify_result(TLScontext->con) == X509_V_OK`. -/
def verify_extract_peer (peername : List Char) (peercert : X509Cert)
    (enforce_CN : Bool) (verify_result_ok : Bool) : VerifyResult :=
  let peer_verified := verify_result_ok
  let verify_peername := enforce_CN && peer_verified
  let scanned :=
    if verify_peername then
      match peercert.subjectAltNames with
      | some gens => scanDNS peername gens
      | none => (0, false)
    else (0, false)
  let dNSName_found := scanned.1
  let hostname_matched := scanned.2
  let peer_CN := peercert.peerCN.getD []
  let issuer_CN := peercert.issuerCN.getD []
  let hostname_matched :=
    if dNSName_found == 0 && verify_peername && !peer_CN.isEmpty then
      match_hostname peer_CN peername
    else hostname_matched
  { peer_verified, hostname_matched, dNSName_found, peer_CN, issuer_CN }

/-- The final diagnostic of `verify_extract_peer`: Verified or
Unverified. -/
inductive VerifyDiag
  | verified
  | unverified
deriving DecidableEq

/-- The condition selecting the Verified line:
`TLScontext->peer_verified && (!TLScontext->enforce_CN ||
TLScontext->hostname_matched)`. -/
def verify_diag (r : VerifyResult) (enforce_CN : Bool) : VerifyDiag :=
  if r.peer_verified && (!enforce_CN || r.hostname_matched) then
    VerifyDiag.verified
  else VerifyDiag.unverified

/-- The diagnostic actually emitted, gated by
`var_smtp_tls_loglevel >= 1`. -/
def verify_log_msg (loglevel : Nat) (r : VerifyResult) (enforce_CN : Bool) :
    Option VerifyDiag :=
  if loglevel ≥ 1 then some (verify_diag r enforce_CN) else none

/-- Outcomes of the external calls made by `tls_client_init`. -/
structure InitEnv where
  entropyBytes : Nat
  ctx_new_ok : Bool
  cipherlist : List Char
  set_cipher_ok : Bool
  set_ca_ok : Bool
  cert_file : List Char
  dcert_file : List Char
  set_cert_key_ok : Bool
  cache_policy : Option Nat
deriving DecidableEq

/-- Modelled from the spec: the body of `tls_ext_seed` is not in the
repository snapshot; per the specification, seeding from the external
entropy source "returns failure" exactly when zero bytes were obtained,
and `tls_client_init` tests for a negative return. -/
def tls_ext_seed_status (bytesObtained : Nat) : Int :=
  if bytesObtained = 0 then -1 else (bytesObtained : Int)

/-- Bit tested in `cache_types` to enable the client session cache
(`TLS_MGR_SCACHE_CLIENT`). -/
def TLS_MGR_SCACHE_CLIENT : Nat := 1

/-- What `tls_client_init` returns and configures: a handle is `some`
exactly when a non-null `SSL_CTX` is returned; `client_cache_on` is the
module-global `tls_client_cache` that `tls_client_start` consults. -/
structure InitOutcome where
  handle : Option Bool
  ctxConstructed : Bool
deriving DecidableEq

/-- Model of `tls_client_init` from `tls_client.c`: entropy seeding, context
construction, cipher list, trust anchors, optional own certificate and
key, and the cache-policy query that sets `tls_client_cache`.  The
`handle` carries `client_cache_on` when initialization succeeds;
`ctxConstructed` records whether `SSL_CTX_new` ever produced a
context. -/
def tls_client_init (env : InitEnv) : InitOutcome :=
  if tls_ext_seed_status env.entropyBytes < 0 then
    { handle := none, ctxConstructed := false }
  else if !env.ctx_new_ok then
    { handle := none, ctxConstructed := false }
  else if !env.cipherlist.isEmpty && !env.set_cipher_ok then
    { handle := none, ctxConstructed := true }
  else if !env.set_ca_ok then
    { handle := none, ctxConstructed := true }
  else if (!env.cert_file.isEmpty || !env.dcert_file.isEmpty)
      && !env.set_cert_key_ok then
    { handle := none, ctxConstructed := true }
  else
    let cache_on :=
      match env.cache_policy with
      | some cache_types => decide (cache_types &&& TLS_MGR_SCACHE_CLIENT ≠ 0)
      | none => false
    { handle := some cache_on, ctxConstructed := true }

/-- A request issued to the external tls_mgr session cache service. -/
inductive CacheOp
  | lookup (key : List Char)
  | delete (key : List Char)
deriving DecidableEq

/-- Model of `uncache_session` from `tls_client.c`: returns without any request
when `TLScontext->serverid` is a null pointer, otherwise issues
`tls_mgr_delete` for that key. -/
def uncache_session (serverid : Option (List Char)) : List CacheOp :=
  match serverid with
  | none => []
  | some sid => [CacheOp.delete sid]

/-- Number of delete requests in a cache-request trace. -/
def countDeletes (ops : List CacheOp) : Nat :=
  (ops.filter fun op =>
    match op with
    | CacheOp.delete _ => true
    | _ => false).length

/-- Outcomes of the external calls made by `tls_client_start`. -/
structure StartEnv where
  ssl_new_ok : Bool
  set_ex_data_ok : Bool
  bio_pair_ok : Bool
  mgr_lookup_blob : Option (List Char)
  activate_ok : Bool
  connect_sts : Int
  session_reused : Bool
  peercert : Option X509Cert
  verify_result_ok : Bool
deriving DecidableEq

/-- Model of `load_clnt_session` from `tls_client.c`: a non-OK `tls_mgr_lookup`
status (modelled as `mgr_lookup_blob = none`) or a blob that
`tls_session_activate` rejects both yield a null session — never an
error. -/
def load_clnt_session (env : StartEnv) : Option Unit :=
  match env.mgr_lookup_blob with
  | some _ => if env.activate_ok then some () else none
  | none => none

/-- The established-connection state handed back by `tls_client_start`
(the `TLScontext` fields a caller reads; CommonName fields stay null
pointers, modelled `none`, when the peer presented no certificate). -/
structure TLSContextResult where
  peer_verified : Bool
  hostname_matched : Bool
  peer_CN : Option (List Char)
  issuer_CN : Option (List Char)
  session_reused : Bool
deriving DecidableEq

/-- Everything observable about one `tls_client_start` run: the returned
context (`none` models a null return), the trace of cache requests, the
failure flag passed to `tls_client_stop` when that teardown was
invoked, and whether `tls_free_context` was called directly. -/
structure StartResult where
  ctx : Option TLSContextResult
  cacheOps : List CacheOp
  stop_failure_flag : Option Bool
  freed : Bool
deriving DecidableEq

/-- Model of `tls_client_start` from `tls_client.c`: allocation, enforcement-flag
setup, BIO pair, optional cache priming, `tls_bio_connect`, peer
verification, and the hostname-mismatch abort.  `tls_client_cache` is
the module global set during `tls_client_init`. -/
def tls_client_start (tls_client_cache : Bool) (env : StartEnv)
    (enforce_peername : Bool) (peername serverid : List Char) : StartResult :=
  if !env.ssl_new_ok then
    { ctx := none, cacheOps := [], stop_failure_flag := none, freed := true }
  else if !env.set_ex_data_ok then
    { ctx := none, cacheOps := [], stop_failure_flag := none, freed := true }
  else if !env.bio_pair_ok then
    { ctx := none, cacheOps := [], stop_failure_flag := none, freed := true }
  else
    let lookupOps : List CacheOp :=
      if tls_client_cache then [CacheOp.lookup serverid] else []
    if env.connect_sts ≤ 0 then
      { ctx := none,
        cacheOps := lookupOps ++ uncache_session (some serverid),
        stop_failure_flag := none, freed := true }
    else
      let vres := env.peercert.map fun cert =>
        verify_extract_peer peername cert enforce_peername env.verify_result_ok
      let hostname_matched := (vres.map VerifyResult.hostname_matched).getD false
      if enforce_peername && !hostname_matched then
        { ctx := none, cacheOps := lookupOps,
          stop_failure_flag := some false, freed := false }
      else
        { ctx := some
            { peer_verified := (vres.map VerifyResult.peer_verified).getD false,
              hostname_matched := hostname_matched,
              peer_CN := vres.map VerifyResult.peer_CN,
              issuer_CN := vres.map VerifyResult.issuer_CN,
              session_reused := env.session_reused },
          cacheOps := lookupOps, stop_failure_flag := none, freed := false }

/-- Modelled from the spec: the body of `tls_client_stop` is not in the
repository snapshot; per this module's own interface description, it
sends the close-notify alert via `SSL_shutdown` unless the failure flag
is set, and it issues no session-cache request. -/
def stop_sends_close_notify (failure : Bool) : Bool := !failure

/-- Whether a close-notify alert went out during the run: only a
`tls_client_stop` invocation with the failure flag clear sends one. -/
def close_notify_sent (r : StartResult) : Bool :=
  match r.stop_failure_flag with
  | some f => stop_sends_close_notify f
  | none => false

/-- Certificate of specification scenario B: one non-matching DNS
Subject-Alternative-Name entry, while the subject CommonName would have
matched the peername. -/
def certB : X509Cert :=
  { subjectAltNames := some [⟨true, "wrong.example.com".data⟩],
    peerCN := some "mail.example.com".data,
    issuerCN := some "ca.example.com".data }

/-- Run environment where every allocation step and the handshake drive
succeed, the trust chain verifies, and the peer presents `certB`. -/
def envMismatch : StartEnv :=
  { ssl_new_ok := true, set_ex_data_ok := true, bio_pair_ok := true,
    mgr_lookup_blob := none, activate_ok := false, connect_sts := 1,
    session_reused := false, peercert := some certB,
    verify_result_ok := true }

/-- Run environment where allocation succeeds but `tls_bio_connect`
reports failure. -/
def envConnectFail : StartEnv :=
  { ssl_new_ok := true, set_ex_data_ok := true, bio_pair_ok := true,
    mgr_lookup_blob := some "blob".data, activate_ok := true,
    connect_sts := -1, session_reused := false, peercert := none,
    verify_result_ok := false }

/-- Run environment of specification scenario D: handshake succeeds, a
certificate is presented, but the trust chain does not verify. -/
def envOpportunistic : StartEnv :=
  { ssl_new_ok := true, set_ex_data_ok := true, bio_pair_ok := true,
    mgr_lookup_blob := none, activate_ok := false, connect_sts := 1,
    session_reused := false, peercert := some certB,
    verify_result_ok := false }

/-- Initialization environment where the external entropy source yields
zero bytes and every other step would have succeeded. -/
def envInitZeroEntropy : InitEnv :=
  { entropyBytes := 0, ctx_new_ok := true, cipherlist := [],
    set_cipher_ok := true, set_ca_ok := true, cert_file := [],
    dcert_file := [], set_cert_key_ok := true, cache_policy := some 1 }

theorem strcasecmpEq_comm (a b : List Char) : strcasecmpEq a b = strcasecmpEq b a := by
  apply Bool.eq_iff_iff.mpr
  unfold strcasecmpEq
  simp only [beq_iff_eq]
  exact eq_comm

/-- Claim C1: `match_hostname pattern hostname` is true exactly when the
pattern equals the hostname case-insensitively, or the pattern is a
left-most-label wildcard `*.` with non-empty remainder and the
hostname's suffix after its first dot equals that remainder
case-insensitively; together with the four concrete test vectors. -/
theorem match_hostname_spec :
    (∀ p h, match_hostname p h = true ↔ SpecHostnameMatch p h) ∧
    match_hostname "example.com".data "example.com".data = true ∧
    match_hostname "*.example.com".data "mail.example.com".data = true ∧
    match_hostname "*.example.com".data "example.com".data = false ∧
    match_hostname "*.example.com".data "a.b.example.com".data = false := by
  refine ⟨?_, by decide, by decide, by decide, by decide⟩
  intro p h
  unfold match_hostname SpecHostnameMatch
  rw [strcasecmpEq_comm h p]
  cases p with
  | nil => simp
  | cons p0 ptail =>
    cases ptail with
    | nil => simp
    | cons p1 rest =>
      cases hs : strchrSuffix h '.' with
      | none =>
        simp only [Bool.or_eq_true, Bool.and_eq_true, beq_iff_eq]
        constructor
        · rintro (h1 | ⟨⟨⟨h1, h2⟩, h3⟩, h4⟩)
          · exact Or.inl h1
          · simp at h4
        · rintro (h1 | ⟨r, s, heq, hr, hsome, hcc⟩)
          · exact Or.inl h1
          · exact Option.noConfusion hsome
      | some suffix =>
        simp only [Bool.or_eq_true, Bool.and_eq_true, beq_iff_eq]
        constructor
        · rintro (h1 | ⟨⟨⟨h1, h2⟩, h3⟩, h4⟩)
          · exact Or.inl h1
          · refine Or.inr ⟨rest, suffix, by rw [h1, h2], ?_, rfl, h4⟩
            intro hx
            rw [hx] at h3
            simp at h3
        · rintro (h1 | ⟨r, s, heq, hr, hsome, hcc⟩)
          · exact Or.inl h1
          · injection heq with e0 heq2
            injection heq2 with e1 e2
            subst e0
            subst e1
            subst e2
            have hsuf : suffix = s := Option.some.inj hsome
            subst hsuf
            refine Or.inr ⟨⟨⟨rfl, rfl⟩, ?_⟩, hcc⟩
            cases rest with
            | nil => exact absurd rfl hr
            | cons a l => rfl

theorem scanDNS_snd (peername : List Char) (gens : List GENERAL_NAME) :
    (scanDNS peername gens).2 =
      gens.any fun gn => gn.isDNS && match_hostname gn.data peername := by
  induction gens with
  | nil => rfl
  | cons gn rest ih =>
    unfold scanDNS
    cases hd : gn.isDNS with
    | false => simp [hd, ih]
    | true =>
      cases hm : match_hostname gn.data peername with
      | false => simp [hd, hm, ih]
      | true => simp [hd, hm]

theorem scanDNS_fst_pos (peername : List Char) (gens : List GENERAL_NAME)
    (hdns : gens.any GENERAL_NAME.isDNS = true) :
    (scanDNS peername gens).1 ≠ 0 := by
  induction gens with
  | nil => simp at hdns
  | cons gn rest ih =>
    unfold scanDNS
    cases hd : gn.isDNS with
    | false =>
      simp only [List.any_cons, hd, Bool.false_or] at hdns
      simpa [hd] using ih hdns
    | true =>
      cases hm : match_hostname gn.data peername with
      | false => simp [hd, hm]
      | true => simp [hd, hm]

/-- Claim C2: for a certificate whose Subject-Alternative-Name stack
contains at least one DNS entry, `hostname_matched` is decided solely
from the DNS entries (it never depends on the extractable CommonNames,
even when no DNS entry matched and the CommonName would have matched):
it equals exactly "peername verification is on and some DNS entry
matches", so the CommonName fallback branch is reachable only with a
zero DNS-entry count. -/
theorem san_precedence (peername : List Char) (gens : List GENERAL_NAME)
    (pcn pcn' icn icn' : Option (List Char)) (enforce_CN verify_result_ok : Bool)
    (hdns : gens.any GENERAL_NAME.isDNS = true) :
    (verify_extract_peer peername ⟨some gens, pcn, icn⟩
        enforce_CN verify_result_ok).hostname_matched =
      (verify_extract_peer peername ⟨some gens, pcn', icn'⟩
        enforce_CN verify_result_ok).hostname_matched ∧
    (verify_extract_peer peername ⟨some gens, pcn, icn⟩
        enforce_CN verify_result_ok).hostname_matched =
      (enforce_CN && verify_result_ok &&
        gens.any fun gn => gn.isDNS && match_hostname gn.data peername) := by
  have key : ∀ p i : Option (List Char),
      (verify_extract_peer peername ⟨some gens, p, i⟩
          enforce_CN verify_result_ok).hostname_matched =
        (enforce_CN && verify_result_ok &&
          gens.any fun gn => gn.isDNS && match_hostname gn.data peername) := by
    intro p i
    unfold verify_extract_peer
    cases he : enforce_CN <;> cases hv : verify_result_ok <;>
      simp [scanDNS_snd, scanDNS_fst_pos peername gens hdns]
  exact ⟨(key pcn icn).trans (key pcn' icn').symm, key pcn icn⟩

/-- Witness for C2, scenario B of the specification: SAN has one DNS
entry that does not match while the CommonName would have matched, and
the result is still a mismatch. -/
theorem san_precedence_witness :
    ([⟨true, "wrong.example.com".data⟩] : List GENERAL_NAME).any
        GENERAL_NAME.isDNS = true ∧
    (verify_extract_peer "mail.example.com".data
        ⟨some [⟨true, "wrong.example.com".data⟩],
          some "mail.example.com".data, some "ca.example.com".data⟩
        true true).hostname_matched = false :=
  ⟨by decide,
    (san_precedence "mail.example.com".data
        [⟨true, "wrong.example.com".data⟩]
        (some "mail.example.com".data) (some "mail.example.com".data)
        (some "ca.example.com".data) (some "ca.example.com".data)
        true true (by decide)).2.trans (by decide)⟩

/-- Claim C5: after `verify_extract_peer` runs, the subject and issuer
CommonName fields are populated with the extractor's result, with the
empty string substituted when extraction fails, and they do not depend
on the enforcement flag or on the trust-chain verification result. -/
theorem common_names_populated (peername : List Char) (peercert : X509Cert)
    (e1 o1 e2 o2 : Bool) :
    (verify_extract_peer peername peercert e1 o1).peer_CN =
        peercert.peerCN.getD [] ∧
    (verify_extract_peer peername peercert e1 o1).issuer_CN =
        peercert.issuerCN.getD [] ∧
    (verify_extract_peer peername peercert e1 o1).peer_CN =
        (verify_extract_peer peername peercert e2 o2).peer_CN ∧
    (verify_extract_peer peername peercert e1 o1).issuer_CN =
        (verify_extract_peer peername peercert e2 o2).issuer_CN :=
  ⟨rfl, rfl, rfl, rfl⟩

/-- Counterexample to claim C3 as stated: with hostname enforcement on,
a successful handshake, and a hostname mismatch, `tls_client_start`
does return failure, but the teardown passes a clear failure flag to
`tls_client_stop`, so a close-notify alert IS sent to the peer. -/
theorem mismatch_close_notify_counterexample :
    (tls_client_start false envMismatch true
        "mail.example.com".data "srv1".data).ctx = none ∧
    close_notify_sent (tls_client_start false envMismatch true
        "mail.example.com".data "srv1".data) = true := by
  constructor <;> decide

/-- Claim C3 as amended: with hostname enforcement on, when the
handshake drive succeeded but the hostname did not match,
`tls_client_start` returns failure and tears the connection down via
`tls_client_stop` with the failure flag clear, so the close-notify
alert is attempted rather than suppressed. -/
theorem enforced_mismatch_fails (cache : Bool) (env : StartEnv)
    (pn sid : List Char)
    (h1 : env.ssl_new_ok = true) (h2 : env.set_ex_data_ok = true)
    (h3 : env.bio_pair_ok = true) (h4 : 0 < env.connect_sts)
    (h5 : (env.peercert.map fun c =>
        (verify_extract_peer pn c true env.verify_result_ok).hostname_matched).getD
        false = false) :
    (tls_client_start cache env true pn sid).ctx = none ∧
    (tls_client_start cache env true pn sid).stop_failure_flag = some false ∧
    close_notify_sent (tls_client_start cache env true pn sid) = true := by
  have hns : ¬ env.connect_sts ≤ 0 := not_le.mpr h4
  cases hpc : env.peercert with
  | none =>
    simp [tls_client_start, h1, h2, h3, hns, hpc, close_notify_sent,
      stop_sends_close_notify]
  | some c =>
    rw [hpc] at h5
    simp at h5
    simp [tls_client_start, h1, h2, h3, hns, hpc, h5, close_notify_sent,
      stop_sends_close_notify]

/-- Witness for the amended C3 at a concrete run. -/
theorem enforced_mismatch_fails_witness :
    ((envMismatch.peercert.map fun c =>
        (verify_extract_peer "mail.example.com".data c true
          envMismatch.verify_result_ok).hostname_matched).getD false = false) ∧
    (tls_client_start false envMismatch true
        "mail.example.com".data "srv1".data).ctx = none ∧
    (tls_client_start false envMismatch true
        "mail.example.com".data "srv1".data).stop_failure_flag = some false ∧
    close_notify_sent (tls_client_start false envMismatch true
        "mail.example.com".data "srv1".data) = true :=
  ⟨by decide,
    enforced_mismatch_fails false envMismatch "mail.example.com".data
      "srv1".data rfl rfl rfl (by decide) (by decide)⟩

/-- Counterexample to claim C4 as stated: in the very failure mode the
claim covers (handshake succeeded, enforcement on, hostname mismatch),
the cache-request trace of `tls_client_start` contains zero delete
requests, not exactly one — `uncache_session` is reached only from the
`tls_bio_connect` failure branch. -/
theorem mismatch_no_delete_counterexample :
    (tls_client_start true envMismatch true
        "mail.example.com".data "srv2".data).ctx = none ∧
    countDeletes (tls_client_start true envMismatch true
        "mail.example.com".data "srv2".data).cacheOps = 0 := by
  constructor <;> decide

/-- Claim C4 as amended: a connection failing under enforced hostname
verification (handshake succeeded, hostname mismatch) issues no
delete request at all to the session cache before `tls_client_start`
returns failure. -/
theorem enforced_mismatch_no_delete (cache : Bool) (env : StartEnv)
    (pn sid : List Char)
    (h1 : env.ssl_new_ok = true) (h2 : env.set_ex_data_ok = true)
    (h3 : env.bio_pair_ok = true) (h4 : 0 < env.connect_sts)
    (h5 : (env.peercert.map fun c =>
        (verify_extract_peer pn c true env.verify_result_ok).hostname_matched).getD
        false = false) :
    (tls_client_start cache env true pn sid).ctx = none ∧
    countDeletes (tls_client_start cache env true pn sid).cacheOps = 0 := by
  have hns : ¬ env.connect_sts ≤ 0 := not_le.mpr h4
  cases hpc : env.peercert with
  | none =>
    cases cache <;>
      simp [tls_client_start, h1, h2, h3, hns, hpc, countDeletes]
  | some c =>
    rw [hpc] at h5
    simp at h5
    cases cache <;>
      simp [tls_client_start, h1, h2, h3, hns, hpc, h5, countDeletes]

/-- Witness for the amended C4 at a concrete run. -/
theorem enforced_mismatch_no_delete_witness :
    ((envMismatch.peercert.map fun c =>
        (verify_extract_peer "mail.example.com".data c true
          envMismatch.verify_result_ok).hostname_matched).getD false = false) ∧
    (tls_client_start true envMismatch true
        "mail.example.com".data "srv2".data).ctx = none ∧
    countDeletes (tls_client_start true envMismatch true
        "mail.example.com".data "srv2".data).cacheOps = 0 :=
  ⟨by decide,
    enforced_mismatch_no_delete true envMismatch "mail.example.com".data
      "srv2".data rfl rfl rfl (by decide) (by decide)⟩

/-- Claim C6: when the external entropy source yields zero bytes,
`tls_client_init` returns failure (a null handle) before any engine
context is constructed. -/
theorem zero_entropy_fatal (env : InitEnv) (h : env.entropyBytes = 0) :
    tls_client_init env = { handle := none, ctxConstructed := false } := by
  unfold tls_client_init tls_ext_seed_status
  simp [h]

/-- Witness for C6 at a concrete initialization environment. -/
theorem zero_entropy_fatal_witness :
    envInitZeroEntropy.entropyBytes = 0 ∧
    tls_client_init envInitZeroEntropy =
      { handle := none, ctxConstructed := false } :=
  ⟨rfl, zero_entropy_fatal envInitZeroEntropy rfl⟩

/-- Claim C7: every session-cache failure mode during lookup (key miss
or unreachable service, i.e. a non-OK `tls_mgr_lookup` status, or a
blob `tls_session_activate` rejects) makes `load_clnt_session` yield
absence rather than an error, and the whole observable outcome of
`tls_client_start` is independent of the cache outcome — cache
unavailability never turns into a handshake failure. -/
theorem cache_failure_harmless (cache : Bool) (env : StartEnv) (e : Bool)
    (pn sid : List Char) (blob blob' : Option (List Char)) (a a' : Bool) :
    tls_client_start cache
        { env with mgr_lookup_blob := blob, activate_ok := a } e pn sid =
      tls_client_start cache
        { env with mgr_lookup_blob := blob', activate_ok := a' } e pn sid ∧
    load_clnt_session { env with mgr_lookup_blob := none, activate_ok := a } =
      none ∧
    load_clnt_session { env with mgr_lookup_blob := blob, activate_ok := false } =
      none := by
  refine ⟨rfl, rfl, ?_⟩
  cases blob <;> rfl

/-- Claim C8: with hostname enforcement off and a failing trust chain,
the verifier reports `peer_verified = false`, skips the hostname check
entirely (no Subject-Alternative-Name entry is counted and the match
stays false for every certificate), the `Unverified` diagnostic is
emitted at verbosity at least 1, and `tls_client_start` still returns
an established connection. -/
theorem opportunistic_unverified (cache : Bool) (env : StartEnv)
    (pn sid : List Char) (cert : X509Cert) (lvl : Nat)
    (h1 : env.ssl_new_ok = true) (h2 : env.set_ex_data_ok = true)
    (h3 : env.bio_pair_ok = true) (h4 : 0 < env.connect_sts)
    (h5 : env.peercert = some cert) (h6 : env.verify_result_ok = false)
    (h7 : 1 ≤ lvl) :
    ((tls_client_start cache env false pn sid).ctx).isSome = true ∧
    ((tls_client_start cache env false pn sid).ctx.map
        TLSContextResult.peer_verified) = some false ∧
    (verify_extract_peer pn cert false false).peer_verified = false ∧
    (verify_extract_peer pn cert false false).hostname_matched = false ∧
    (verify_extract_peer pn cert false false).dNSName_found = 0 ∧
    verify_log_msg lvl (verify_extract_peer pn cert false false) false =
      some VerifyDiag.unverified := by
  have hns : ¬ env.connect_sts ≤ 0 := not_le.mpr h4
  refine ⟨?_, ?_, rfl, rfl, rfl, ?_⟩
  · simp [tls_client_start, h1, h2, h3, hns, h5]
  · simp [tls_client_start, h1, h2, h3, hns, h5, h6, verify_extract_peer]
  · simp [verify_log_msg, verify_diag, verify_extract_peer, h7]

/-- Witness for C8 at a concrete run (specification scenario D). -/
theorem opportunistic_unverified_witness :
    (envOpportunistic.peercert = some certB ∧
      envOpportunistic.verify_result_ok = false ∧ 1 ≤ (1 : Nat)) ∧
    ((tls_client_start false envOpportunistic false
        "mail.example.com".data "srv3".data).ctx).isSome = true ∧
    ((tls_client_start false envOpportunistic false
        "mail.example.com".data "srv3".data).ctx.map
        TLSContextResult.peer_verified) = some false ∧
    (verify_extract_peer "mail.example.com".data certB false
        false).peer_verified = false ∧
    (verify_extract_peer "mail.example.com".data certB false
        false).hostname_matched = false ∧
    (verify_extract_peer "mail.example.com".data certB false
        false).dNSName_found = 0 ∧
    verify_log_msg 1 (verify_extract_peer "mail.example.com".data certB
        false false) false = some VerifyDiag.unverified :=
  ⟨⟨rfl, rfl, by decide⟩,
    opportunistic_unverified false envOpportunistic
      "mail.example.com".data "srv3".data certB 1 rfl rfl rfl (by decide)
      rfl rfl (by decide)⟩

/-- Counterexample to claim C9 as stated: for a connection state whose
cache key is the empty string (present but empty), `uncache_session`
does issue a delete request to the external cache service. -/
theorem empty_key_delete_counterexample :
    uncache_session (some []) = [CacheOp.delete []] ∧
    uncache_session (some []) ≠ [] :=
  ⟨rfl, by decide⟩

/-- Claim C9 as amended: `uncache_session` is a no-op exactly when the
cache key is absent (a null pointer); any present key, the empty string
included, results in one delete request. -/
theorem uncache_session_no_op_iff_absent :
    uncache_session none = [] ∧
    ∀ sid, uncache_session (some sid) = [CacheOp.delete sid] :=
  ⟨rfl, fun _ => rfl⟩

/-- Claim C10: whenever the handshake drive fails (`tls_bio_connect`
returns a non-positive status), `tls_client_start` issues exactly one
delete request for the connection's server-id key — regardless of
whether client-side caching is enabled or a session had been primed —
then releases the connection state and returns failure. -/
theorem connect_failure_uncaches (cache : Bool) (env : StartEnv) (e : Bool)
    (pn sid : List Char)
    (h1 : env.ssl_new_ok = true) (h2 : env.set_ex_data_ok = true)
    (h3 : env.bio_pair_ok = true) (h4 : env.connect_sts ≤ 0) :
    (tls_client_start cache env e pn sid).ctx = none ∧
    countDeletes (tls_client_start cache env e pn sid).cacheOps = 1 ∧
    CacheOp.delete sid ∈ (tls_client_start cache env e pn sid).cacheOps ∧
    (tls_client_start cache env e pn sid).freed = true := by
  cases cache <;>
    simp [tls_client_start, h1, h2, h3, h4, uncache_session, countDeletes]

/-- Witness for C10 at a concrete run with caching disabled and no
primed session. -/
theorem connect_failure_uncaches_witness :
    envConnectFail.connect_sts ≤ 0 ∧
    (tls_client_start false envConnectFail false
        "mail.example.com".data "srv4".data).ctx = none ∧
    countDeletes (tls_client_start false envConnectFail false
        "mail.example.com".data "srv4".data).cacheOps = 1 ∧
    CacheOp.delete "srv4".data ∈ (tls_client_start false envConnectFail false
        "mail.example.com".data "srv4".data).cacheOps ∧
    (tls_client_start false envConnectFail false
        "mail.example.com".data "srv4".data).freed = true :=
  ⟨by decide,
    connect_failure_uncaches false envConnectFail false
      "mail.example.com".data "srv4".data rfl rfl rfl (by decide)⟩

end TLSClient
